import Mathlib

/-!
Shallow embedding of Build_Product.py (BuildSellbriteProductByScannedUPC).

The script is a linear pipeline: scan a UPC via camera, generate product
metadata with a text-completion service, estimate a price from sold
listings, mint a sequential SKU from a counter file, and POST a product
payload to an inventory API.

Modelling conventions:
- Python exceptions become an explicit error type threaded via Except.
- The counter file is an Option String (none = file does not exist).
- Network responses are passed in as already-received data; the HTTP
  layer itself is out of scope.
- Python floats are modelled as exact rationals: every arithmetic step
  the claims mention (sum, mean, halving) is exact on the inputs used.
-/

/-- Python exception kinds raised by the script. -/
inductive PyError where
  | fileNotFoundError   -- open() on a missing file
  | valueError          -- int()/float() on a non-numeric string
  | attributeError      -- .text on a None returned by Element.find
  | indexError          -- list index out of range
  | xmlParseError       -- ET.fromstring on a non-XML body
deriving DecidableEq, Repr

/-- Characters stripped by Python str.strip() (ASCII whitespace set). -/
def pyWs (c : Char) : Bool :=
  c = ' ' || c = '\t' || c = '\n' || c = '\r' || c = '\x0b' || c = '\x0c'

/-- Python str.strip(): drop whitespace from both ends. -/
def pyStrip (s : String) : String :=
  ⟨((s.data.dropWhile pyWs).reverse.dropWhile pyWs).reverse⟩

/-- Tail of a Python integer literal after its first digit: digits with
single underscores allowed between digits. -/
def intTail : List Char → Bool
  | [] => true
  | ['_'] => false
  | '_' :: c :: rest => c.isDigit && intTail rest
  | c :: rest => c.isDigit && intTail rest

/-- A nonempty run of digits (underscore separators allowed), as accepted
by Python int(). -/
def intDigitsOk : List Char → Bool
  | [] => false
  | c :: rest => c.isDigit && intTail rest

/-- Decimal value of a digit/underscore run (underscores skipped). -/
def digitsVal (l : List Char) : Nat :=
  l.foldl (fun a c => if c.isDigit then a * 10 + (c.toNat - 48) else a) 0

/-- Model of Python int(str): strip whitespace, optional sign, digits.
Returns none where Python raises ValueError. -/
def pyInt (s : String) : Option Int :=
  match (pyStrip s).data with
  | '+' :: rest => if intDigitsOk rest then some (digitsVal rest) else none
  | '-' :: rest => if intDigitsOk rest then some (-(digitsVal rest : Int)) else none
  | rest => if intDigitsOk rest then some (digitsVal rest) else none

/-- Left-pad a string with zeros to width w (no-op if already long enough). -/
def padZero (w : Nat) (s : String) : String :=
  if w ≤ s.length then s else ⟨List.replicate (w - s.length) '0'⟩ ++ s

/-- Python format spec {n:03}: minimum total width 3, zero fill goes
between the sign and the digits. -/
def fmt03 (n : Int) : String :=
  if n < 0 then "-" ++ padZero 2 (Nat.repr n.natAbs) else padZero 3 (Nat.repr n.natAbs)

/-- datetime.now().strftime of the pattern yymmdd: two-digit year, month,
day, each zero-padded to width 2. -/
def formatDate (y m d : Nat) : String :=
  padZero 2 (Nat.repr (y % 100)) ++ padZero 2 (Nat.repr m) ++ padZero 2 (Nat.repr d)

/-- generate_sku from Build_Product.py. Reads SEQUENTIAL_FILE (here the
store argument; none models a missing file), parses int(content.strip()),
increments, writes str(new) back, and formats the SKU
dateStr-B-{new:03}. Returns (sku, new store content). -/
def generate_sku (dateStr : String) (store : Option String) :
    Except PyError (String × String) :=
  match store with
  | none => .error .fileNotFoundError
  | some content =>
    match pyInt (pyStrip content) with
    | none => .error .valueError
    | some n =>
      let seq := n + 1
      .ok (dateStr ++ "-B-" ++ fmt03 seq, toString seq)

/-- The exact rational value sign * num / den * 10 ^ e, assembled with
integer arithmetic only. -/
def ratVal (sign : Int) (num den : Nat) (e : Int) : ℚ :=
  if 0 ≤ e then Rat.divInt (sign * num * (10 : Int) ^ e.toNat) den
  else Rat.divInt (sign * num) ((den : Int) * (10 : Int) ^ (-e).toNat)

/-- Exponent part of a Python float literal: optional; (e|E) sign? digits,
consuming the whole remaining input. sign, num, den describe the already
parsed mantissa sign * num / den. -/
def floatExpPart (sign : Int) (num den : Nat) : List Char → Option ℚ
  | [] => some (ratVal sign num den 0)
  | c :: r =>
    if c = 'e' ∨ c = 'E' then
      let (esign, r2) : Int × List Char :=
        match r with
        | '+' :: rr => (1, rr)
        | '-' :: rr => (-1, rr)
        | rr => (1, rr)
      let ed := r2.takeWhile Char.isDigit
      let rest := r2.dropWhile Char.isDigit
      if ed.isEmpty ∨ ¬ rest.isEmpty then none
      else some (ratVal sign num den (esign * (digitsVal ed : Int)))
    else none

/-- Model of Python float(str) on the finite numeric grammar:
whitespace-stripped, optional sign, digits with an optional fractional
part (or a bare fractional part), optional exponent. Returns none where
Python raises ValueError. The value is kept as an exact rational. -/
def pyFloat (s : String) : Option ℚ :=
  let l := (pyStrip s).data
  let (sign, l2) : Int × List Char :=
    match l with
    | '+' :: r => (1, r)
    | '-' :: r => (-1, r)
    | r => (1, r)
  let ip := l2.takeWhile Char.isDigit
  let rest := l2.dropWhile Char.isDigit
  match rest with
  | '.' :: r2 =>
    let fp := r2.takeWhile Char.isDigit
    let rest2 := r2.dropWhile Char.isDigit
    if ip.isEmpty ∧ fp.isEmpty then none
    else floatExpPart sign (digitsVal ip * 10 ^ fp.length + digitsVal fp) (10 ^ fp.length) rest2
  | _ =>
    if ip.isEmpty then none else floatExpPart sign (digitsVal ip) 1 rest

/-- One <item> of the parsed FindingService XML document. currentPrice is
the text of its sellingStatus/currentPrice node; none models a missing
node (item.find returns None, so .text raises AttributeError). -/
structure EbayItem where
  currentPrice : Option String
deriving DecidableEq, Repr

/-- The accumulation loop of get_ebay_sold_price: total_price and
total_items over the items, failing exactly where the Python loop raises
(missing price node, or float() on non-numeric text). -/
def sumPricesAux (acc : ℚ) (cnt : Nat) : List EbayItem → Except PyError (ℚ × Nat)
  | [] => .ok (acc, cnt)
  | it :: rest =>
    match it.currentPrice with
    | none => .error .attributeError
    | some t =>
      match pyFloat t with
      | none => .error .valueError
      | some p => sumPricesAux (acc + p) (cnt + 1) rest

/-- get_ebay_sold_price from Build_Product.py, after the HTTP layer: the
argument is the parsed response document (none models a body
ET.fromstring cannot parse). Averages the sold prices and returns half
the average, or none (Python None) when no items were found. -/
def get_ebay_sold_price (doc : Option (List EbayItem)) :
    Except PyError (Option ℚ) :=
  match doc with
  | none => .error .xmlParseError
  | some items =>
    match sumPricesAux 0 0 items with
    | .error e => .error e
    | .ok (total_price, total_items) =>
      if 0 < total_items then .ok (some (total_price / (total_items : ℚ) / 2))
      else .ok none

/-- Python str.split on a newline separator, on the character list:
"".split gives [""], separators at the ends give empty pieces. -/
def splitNl : List Char → List (List Char)
  | [] => [[]]
  | '\n' :: rest => [] :: splitNl rest
  | c :: rest =>
    match splitNl rest with
    | [] => [[c]]
    | piece :: pieces => (c :: piece) :: pieces

/-- Python s.split of a string on newlines. -/
def pySplitLines (s : String) : List String :=
  (splitNl s.data).map List.asString

/-- Python list indexing on the split lines: generated_text[i], raising
IndexError when i is out of range. -/
def nthLine : List String → Nat → Except PyError String
  | [], _ => .error .indexError
  | s :: _, 0 => .ok s
  | _ :: rest, i + 1 => nthLine rest i

/-- generate_product_info from Build_Product.py, after the completion
call: the argument is response.choices[0].text. Strips it, splits on
newlines, and reads positions 0-6 as
(title, description, brand, manufacturer, model_number, msrp, category). -/
def generate_product_info (text : String) :
    Except PyError (String × String × String × String × String × String × String) :=
  let generated_text := pySplitLines (pyStrip text)
  do
    let title ← nthLine generated_text 0
    let description ← nthLine generated_text 1
    let brand ← nthLine generated_text 2
    let manufacturer ← nthLine generated_text 3
    let model_number ← nthLine generated_text 4
    let msrp ← nthLine generated_text 5
    let category ← nthLine generated_text 6
    pure (title, description, brand, manufacturer, model_number, msrp, category)

/-- Pipeline stages of one run, named after the stages of the spec. -/
inductive Stage where
  | acquiring
  | minting
  | estimating
  | generating
  | publishing
deriving DecidableEq, Repr

/-- The JSON payload POSTed to /products. -/
structure SBPayload where
  sku : String
  title : String
  description : String
  brand : String
  manufacturer : String
  model_number : String
  price : ℚ
  category : String
  upc : String
deriving DecidableEq, Repr

/-- One HTTP request submitted to the inventory API. -/
structure SBRequest where
  url : String
  contentType : String
  authorization : String
  payload : SBPayload
deriving DecidableEq, Repr

/-- The observable outcome of a completed run: the requests submitted to
the inventory API and the message printed to the operator. -/
structure RunReport where
  requests : List SBRequest
  message : String
deriving DecidableEq, Repr

/-- The Authorization header value built by the script:
the f-string Basic {api_key}:{api_secret} (no base64 encoding). -/
def sb_auth_header (api_key api_secret : String) : String :=
  "Basic " ++ api_key ++ ":" ++ api_secret

/-- The message printed after the POST: success on 201, otherwise the
failure message carrying the response body. -/
def sb_report (status : Nat) (body : String) : String :=
  if status = 201 then "Product listing created successfully."
  else "Failed to create product listing. Error: " ++ body

/-- create_sellbrite_product_listing from Build_Product.py, after the
HTTP layer. Inputs beyond the credentials and the UPC are the data the
external services return: the completion text, the parsed sold-listings
document, the current date string, the counter store content, and the
inventory API response (status, body). Returns the list of stages
entered, paired with either the raised exception or the run report.
Stage order follows the code: generate_product_info, then
get_ebay_sold_price, then generate_sku, then the POST. -/
def create_sellbrite_product_listing (api_key api_secret upc_code : String)
    (completionText : String) (ebayDoc : Option (List EbayItem))
    (dateStr : String) (store : Option String)
    (respStatus : Nat) (respBody : String) :
    List Stage × Except PyError RunReport :=
  match generate_product_info completionText with
  | .error e => ([.generating], .error e)
  | .ok (title, description, brand, manufacturer, model_number, msrp, category) =>
    match get_ebay_sold_price ebayDoc with
    | .error e => ([.generating, .estimating], .error e)
    | .ok ebay_sold_price =>
      match
        ((match ebay_sold_price with
          | some p => Except.ok p
          | none =>
            match pyFloat msrp with
            | none => Except.error PyError.valueError
            | some m => Except.ok (m / 2)) : Except PyError ℚ) with
      | .error e => ([.generating, .estimating], .error e)
      | .ok price =>
        match generate_sku dateStr store with
        | .error e => ([.generating, .estimating, .minting], .error e)
        | .ok (sku, _newStore) =>
          let payload : SBPayload :=
            ⟨sku, title, description, brand, manufacturer, model_number,
             price, category, upc_code⟩
          let req : SBRequest :=
            ⟨"https://api.sellbrite.com/v1/products", "application/json",
             sb_auth_header api_key api_secret, payload⟩
          ([.generating, .estimating, .minting, .publishing],
           .ok ⟨[req], sb_report respStatus respBody⟩)

/-- One camera frame, as the list of barcodes pyzbar decodes from it:
(type tag, decoded payload) pairs. -/
def Frame : Type := List (String × String)

/-- The acquisition loop of main: scan frames in order and return the
first payload whose symbol type is UPC. none models the case where the
given frames never contain one (the real loop then blocks forever). -/
def scan_frames : List Frame → Option String
  | [] => none
  | f :: rest =>
    match f.find? (fun o => o.1 = "UPC") with
    | some o => some o.2
    | none => scan_frames rest

/-- main from Build_Product.py: acquire a UPC from the camera frames,
then run create_sellbrite_product_listing on it. The trace starts with
the Acquiring stage; none models a run stuck in acquisition. -/
def main_run (frames : List Frame) (api_key api_secret : String)
    (completionText : String) (ebayDoc : Option (List EbayItem))
    (dateStr : String) (store : Option String)
    (respStatus : Nat) (respBody : String) :
    List Stage × Option (Except PyError RunReport) :=
  match scan_frames frames with
  | none => ([.acquiring], none)
  | some upc_code =>
    let r := create_sellbrite_product_listing api_key api_secret upc_code
      completionText ebayDoc dateStr store respStatus respBody
    (.acquiring :: r.1, some r.2)

/-- The base64 alphabet. -/
def b64Alphabet : List Char :=
  "ABCDEFGHIJKLMNOPQRSTUVWXYZabcdefghijklmnopqrstuvwxyz0123456789+/".data

/-- Character for a 6-bit group. -/
def b64Char (n : Nat) : Char := b64Alphabet.getD n '='

/-- Standard base64 of a byte sequence, with padding. -/
def base64EncodeBytes : List Nat → List Char
  | [] => []
  | [a] => [b64Char (a / 4), b64Char (a % 4 * 16), '=', '=']
  | [a, b] => [b64Char (a / 4), b64Char (a % 4 * 16 + b / 16), b64Char (b % 16 * 4), '=']
  | a :: b :: c :: rest =>
    b64Char (a / 4) :: b64Char (a % 4 * 16 + b / 16) ::
    b64Char (b % 16 * 4 + c / 64) :: b64Char (c % 64) :: base64EncodeBytes rest

/-- base64 of a string (code points as bytes; the inputs used are ASCII). -/
def base64Encode (s : String) : String :=
  ⟨base64EncodeBytes (s.data.map Char.toNat)⟩

/-- Modelled from the spec: the correct HTTP Basic Authorization header,
the Basic prefix followed by base64 of key:secret. The code under src/
does not build this; it is the comparison point for the header claim. -/
def spec_basic_auth (api_key api_secret : String) : String :=
  "Basic " ++ base64Encode (api_key ++ ":" ++ api_secret)

/-- C1: for every counter store whose content parses as an integer N,
minting returns the SKU {two-digit-year}{two-digit-month}{two-digit-day}-B-
{N+1 zero-padded to 3 digits}, and the store afterwards contains exactly
N+1. -/
theorem generate_sku_mints_next (y m d : Nat) (content : String) (N : Int)
    (h : pyInt (pyStrip content) = some N) :
    generate_sku (formatDate y m d) (some content) =
      .ok (formatDate y m d ++ "-B-" ++ fmt03 (N + 1), toString (N + 1)) := by
  simp [generate_sku, h]

theorem generate_sku_mints_next_witness :
    pyInt (pyStrip "41") = some 41 ∧
    generate_sku (formatDate 26 10 12) (some "41") =
      .ok (formatDate 26 10 12 ++ "-B-" ++ fmt03 42, toString (42 : Int)) :=
  ⟨by decide, generate_sku_mints_next 26 10 12 "41" 41 (by decide)⟩

/-- C7: minting fails with ValueError (the ParseError of the spec) when
the store content is not a valid integer, and with FileNotFoundError
(the NotFoundError of the spec) when the store does not exist; in both
cases no SKU is returned. -/
theorem generate_sku_error_cases :
    (∀ dateStr, generate_sku dateStr none = .error .fileNotFoundError) ∧
    (∀ dateStr content, pyInt (pyStrip content) = none →
      generate_sku dateStr (some content) = .error .valueError) := by
  constructor
  · intro dateStr; rfl
  · intro dateStr content h; simp [generate_sku, h]

theorem generate_sku_error_cases_witness :
    generate_sku "261012" none = .error .fileNotFoundError ∧
    generate_sku "261012" (some "abc") = .error .valueError :=
  ⟨generate_sku_error_cases.1 "261012",
   generate_sku_error_cases.2 "261012" "abc" (by decide)⟩

/-- The accumulation loop on items whose price text parses: it adds up
the parsed prices and counts the items. -/
lemma sumPricesAux_map (texts : List String) (ps : List ℚ)
    (h : texts.map pyFloat = ps.map some) :
    ∀ acc cnt, sumPricesAux acc cnt (texts.map (fun t => EbayItem.mk (some t))) =
      .ok (acc + ps.sum, cnt + ps.length) := by
  induction texts generalizing ps with
  | nil =>
    intro acc cnt
    cases ps with
    | nil => simp [sumPricesAux]
    | cons p ps2 => simp at h
  | cons t ts ih =>
    intro acc cnt
    cases ps with
    | nil => simp at h
    | cons p ps2 =>
      simp only [List.map_cons, List.cons.injEq] at h
      obtain ⟨h1, h2⟩ := h
      simp only [List.map_cons, sumPricesAux, h1]
      rw [ih ps2 h2]
      simp only [Except.ok.injEq, Prod.mk.injEq, List.sum_cons, List.length_cons]
      exact ⟨by ring, by omega⟩

/-- C2: on a response whose items all carry numeric price text, the
estimator returns half the arithmetic mean of the parsed prices; on a
response with zero items it returns the distinguished absence value
(ok none), not zero and not an error. -/
theorem get_ebay_sold_price_mean :
    (∀ (texts : List String) (ps : List ℚ), texts ≠ [] →
      texts.map pyFloat = ps.map some →
      get_ebay_sold_price (some (texts.map (fun t => EbayItem.mk (some t)))) =
        .ok (some (ps.sum / (ps.length : ℚ) / 2))) ∧
    get_ebay_sold_price (some []) = .ok none := by
  constructor
  · intro texts ps hne h
    have hlen : texts.length = ps.length := by
      have := congrArg List.length h
      simpa using this
    have hpos : 0 < ps.length := by
      cases texts with
      | nil => exact absurd rfl hne
      | cons t ts => rw [← hlen]; simp
    have hred : get_ebay_sold_price (some (texts.map (fun t => EbayItem.mk (some t)))) =
        (match sumPricesAux 0 0 (texts.map (fun t => EbayItem.mk (some t))) with
         | .error e => .error e
         | .ok (tp, ti) =>
           if 0 < ti then .ok (some (tp / (ti : ℚ) / 2)) else .ok none) := rfl
    rw [hred, sumPricesAux_map texts ps h 0 0]
    simp [hpos]
  · rfl

theorem get_ebay_sold_price_mean_witness :
    get_ebay_sold_price
        (some [EbayItem.mk (some "10.0"), EbayItem.mk (some "20.0"),
               EbayItem.mk (some "30.0")]) = .ok (some 10) ∧
    get_ebay_sold_price (some []) = .ok none := by
  constructor
  · have h := get_ebay_sold_price_mean.1 ["10.0", "20.0", "30.0"] [10, 20, 30]
      (by simp) (by decide)
    simp only [List.map_cons, List.map_nil] at h
    rw [h]
    norm_num
  · exact get_ebay_sold_price_mean.2

/-- A listing record the Python loop cannot process: its price node is
missing, or its price text is not numeric. -/
def badItem (it : EbayItem) : Prop :=
  it.currentPrice = none ∨ ∃ t, it.currentPrice = some t ∧ pyFloat t = none

/-- The accumulation loop fails whenever some item is bad. -/
lemma sumPricesAux_bad (items : List EbayItem)
    (h : ∃ it ∈ items, badItem it) :
    ∀ acc cnt, ∃ e, sumPricesAux acc cnt items = .error e := by
  induction items with
  | nil => simp at h
  | cons it rest ih =>
    intro acc cnt
    obtain ⟨x, hx, hbad⟩ := h
    rcases List.mem_cons.mp hx with hxh | hmem
    · subst hxh
      rcases hbad with hnone | ⟨t, ht, hp⟩
      · exact ⟨.attributeError, by simp [sumPricesAux, hnone]⟩
      · exact ⟨.valueError, by simp [sumPricesAux, ht, hp]⟩
    · cases hc : it.currentPrice with
      | none => exact ⟨.attributeError, by simp [sumPricesAux, hc]⟩
      | some t =>
        cases hp : pyFloat t with
        | none => exact ⟨.valueError, by simp [sumPricesAux, hc, hp]⟩
        | some p =>
          obtain ⟨e, he⟩ := ih ⟨x, hmem, hbad⟩ (acc + p) (cnt + 1)
          exact ⟨e, by simp [sumPricesAux, hc, hp, he]⟩

/-- C8: the estimator propagates a failure for every response with a
malformed item (missing or non-numeric price) and for a document the
parser cannot traverse; no item is skipped and no partial average is
returned. -/
theorem get_ebay_sold_price_strict :
    (∀ items, (∃ it ∈ items, badItem it) →
      ∃ e, get_ebay_sold_price (some items) = .error e) ∧
    get_ebay_sold_price none = .error .xmlParseError := by
  constructor
  · intro items h
    obtain ⟨e, he⟩ := sumPricesAux_bad items h 0 0
    exact ⟨e, by simp [get_ebay_sold_price, he]⟩
  · rfl

theorem get_ebay_sold_price_strict_witness :
    (∃ e, get_ebay_sold_price
        (some [EbayItem.mk (some "10.0"), EbayItem.mk none]) = .error e) ∧
    get_ebay_sold_price none = .error .xmlParseError :=
  ⟨get_ebay_sold_price_strict.1 [EbayItem.mk (some "10.0"), EbayItem.mk none]
      ⟨EbayItem.mk none, by simp, Or.inl rfl⟩,
   get_ebay_sold_price_strict.2⟩

/-- C3: when the trimmed completion text splits into exactly seven lines,
metadata generation returns the seven fields (title, description, brand,
manufacturer, model number, MSRP, category) in that positional order;
with six or fewer lines it fails with IndexError (the
MalformedResponseError of the spec) and returns no partial record. -/
theorem generate_product_info_seven :
    (∀ text a b c d e f g,
      pySplitLines (pyStrip text) = [a, b, c, d, e, f, g] →
      generate_product_info text = .ok (a, b, c, d, e, f, g)) ∧
    (∀ text, (pySplitLines (pyStrip text)).length ≤ 6 →
      generate_product_info text = .error .indexError) := by
  constructor
  · intro text a b c d e f g h
    unfold generate_product_info
    rw [h]; rfl
  · intro text h
    rcases hls : pySplitLines (pyStrip text) with
      _ | ⟨a, _ | ⟨b, _ | ⟨c, _ | ⟨d, _ | ⟨e2, _ | ⟨f2, _ | ⟨g, rest⟩⟩⟩⟩⟩⟩⟩
    · unfold generate_product_info; rw [hls]; rfl
    · unfold generate_product_info; rw [hls]; rfl
    · unfold generate_product_info; rw [hls]; rfl
    · unfold generate_product_info; rw [hls]; rfl
    · unfold generate_product_info; rw [hls]; rfl
    · unfold generate_product_info; rw [hls]; rfl
    · unfold generate_product_info; rw [hls]; rfl
    · rw [hls] at h
      simp only [List.length_cons] at h
      omega

theorem generate_product_info_seven_witness :
    generate_product_info "t\nd\nb\nmf\nmn\n19.99\nc" =
      .ok ("t", "d", "b", "mf", "mn", "19.99", "c") ∧
    generate_product_info "only\nthree\nlines" = .error .indexError :=
  ⟨generate_product_info_seven.1 "t\nd\nb\nmf\nmn\n19.99\nc"
      "t" "d" "b" "mf" "mn" "19.99" "c" (by decide),
   generate_product_info_seven.2 "only\nthree\nlines" (by decide)⟩

/-- C10: when the trimmed completion text splits into more than seven
lines, metadata generation succeeds and returns exactly the first seven
lines as the seven fields, discarding everything past position 6. -/
theorem generate_product_info_extra_lines (text : String)
    (a b c d e f g : String) (rest : List String)
    (hne : rest ≠ [])
    (h : pySplitLines (pyStrip text) = a :: b :: c :: d :: e :: f :: g :: rest) :
    generate_product_info text = .ok (a, b, c, d, e, f, g) := by
  unfold generate_product_info
  rw [h]; rfl

theorem generate_product_info_extra_lines_witness :
    generate_product_info "1\n2\n3\n4\n5\n6\n7\n8\n9" =
      .ok ("1", "2", "3", "4", "5", "6", "7") :=
  generate_product_info_extra_lines "1\n2\n3\n4\n5\n6\n7\n8\n9"
    "1" "2" "3" "4" "5" "6" "7" ["8", "9"] (by decide) (by decide)

/-- The failure message printed for a non-201 status never coincides with
the success message, whatever the response body is. -/
lemma fail_msg_ne_success (body : String) :
    "Failed to create product listing. Error: " ++ body ≠
      "Product listing created successfully." := by
  intro hcontra
  have hlen := congrArg String.length hcontra
  have h41 : ("Failed to create product listing. Error: " : String).length = 41 := rfl
  have h37 : ("Product listing created successfully." : String).length = 37 := rfl
  rw [String.length_append, h41, h37] at hlen
  omega

/-- The printed report is the success message exactly on status 201. -/
lemma sb_report_eq_success (status : Nat) (body : String) :
    sb_report status body = "Product listing created successfully." ↔
      status = 201 := by
  unfold sb_report
  by_cases hs : status = 201
  · simp [hs]
  · rw [if_neg hs]
    exact ⟨fun h => absurd h (fail_msg_ne_success body), fun h => absurd h hs⟩

/-- C4: with metadata generation and SKU minting succeeding, the
submitted price is the historical estimate whenever one is present;
otherwise it is the generated MSRP parsed as a number, halved; and when
the MSRP text is not a clean numeric string the publisher raises
ValueError (the ParseError of the spec) with no request submitted. -/
theorem create_listing_price_selection
    (api_key api_secret upc_code completionText : String)
    (ebayDoc : Option (List EbayItem)) (dateStr : String)
    (store : Option String) (respStatus : Nat) (respBody : String)
    (t d b mf mn msrp cat sku ns : String)
    (hgen : generate_product_info completionText = .ok (t, d, b, mf, mn, msrp, cat))
    (hsku : generate_sku dateStr store = .ok (sku, ns)) :
    (∀ p, get_ebay_sold_price ebayDoc = .ok (some p) →
      create_sellbrite_product_listing api_key api_secret upc_code
          completionText ebayDoc dateStr store respStatus respBody =
        ([.generating, .estimating, .minting, .publishing],
         .ok ⟨[⟨"https://api.sellbrite.com/v1/products", "application/json",
                sb_auth_header api_key api_secret,
                ⟨sku, t, d, b, mf, mn, p, cat, upc_code⟩⟩],
              sb_report respStatus respBody⟩)) ∧
    (∀ m, get_ebay_sold_price ebayDoc = .ok none → pyFloat msrp = some m →
      create_sellbrite_product_listing api_key api_secret upc_code
          completionText ebayDoc dateStr store respStatus respBody =
        ([.generating, .estimating, .minting, .publishing],
         .ok ⟨[⟨"https://api.sellbrite.com/v1/products", "application/json",
                sb_auth_header api_key api_secret,
                ⟨sku, t, d, b, mf, mn, m / 2, cat, upc_code⟩⟩],
              sb_report respStatus respBody⟩)) ∧
    (get_ebay_sold_price ebayDoc = .ok none → pyFloat msrp = none →
      create_sellbrite_product_listing api_key api_secret upc_code
          completionText ebayDoc dateStr store respStatus respBody =
        ([.generating, .estimating], .error .valueError)) := by
  refine ⟨?_, ?_, ?_⟩
  · intro p hest
    simp [create_sellbrite_product_listing, hgen, hest, hsku]
  · intro m hest hm
    simp [create_sellbrite_product_listing, hgen, hest, hm, hsku]
  · intro hest hm
    simp [create_sellbrite_product_listing, hgen, hest, hm]

theorem create_listing_price_selection_witness :
    create_sellbrite_product_listing "k" "s" "u" "t\nd\nb\nmf\nmn\n19.99\nc"
        (some []) "261012" (some "41") 201 "" =
      ([.generating, .estimating, .minting, .publishing],
       .ok ⟨[⟨"https://api.sellbrite.com/v1/products", "application/json",
              sb_auth_header "k" "s",
              ⟨"261012-B-042", "t", "d", "b", "mf", "mn",
               Rat.divInt 1999 100 / 2, "c", "u"⟩⟩],
            sb_report 201 ""⟩) :=
  (create_listing_price_selection "k" "s" "u" "t\nd\nb\nmf\nmn\n19.99\nc"
      (some []) "261012" (some "41") 201 ""
      "t" "d" "b" "mf" "mn" "19.99" "c" "261012-B-042" "42"
      (by rfl) (by rfl)).2.1 (Rat.divInt 1999 100) rfl (by decide)

/-- Every run that completes without an exception submitted exactly one
request and printed the sb_report message for the received status. -/
lemma create_listing_ok_shape
    (api_key api_secret upc_code completionText : String)
    (ebayDoc : Option (List EbayItem)) (dateStr : String)
    (store : Option String) (respStatus : Nat) (respBody : String)
    (rep : RunReport)
    (h : (create_sellbrite_product_listing api_key api_secret upc_code
        completionText ebayDoc dateStr store respStatus respBody).2 = .ok rep) :
    ∃ req, rep = ⟨[req], sb_report respStatus respBody⟩ := by
  rcases hgen : generate_product_info completionText with e | v
  · simp [create_sellbrite_product_listing, hgen] at h
  · obtain ⟨t, d, b, mf, mn, ms, c⟩ := v
    rcases hest : get_ebay_sold_price ebayDoc with e | est
    · simp [create_sellbrite_product_listing, hgen, hest] at h
    · rcases est with _ | p
      · rcases hm : pyFloat ms with _ | m
        · simp [create_sellbrite_product_listing, hgen, hest, hm] at h
        · rcases hsku : generate_sku dateStr store with e | sv
          · simp [create_sellbrite_product_listing, hgen, hest, hm, hsku] at h
          · obtain ⟨sku, ns⟩ := sv
            simp only [create_sellbrite_product_listing, hgen, hest, hm, hsku,
              Except.ok.injEq] at h
            exact ⟨_, h.symm⟩
      · rcases hsku : generate_sku dateStr store with e | sv
        · simp [create_sellbrite_product_listing, hgen, hest, hsku] at h
        · obtain ⟨sku, ns⟩ := sv
          simp only [create_sellbrite_product_listing, hgen, hest, hsku,
            Except.ok.injEq] at h
          exact ⟨_, h.symm⟩

/-- C6: whenever the publisher completes without an exception, it
submitted exactly one create-resource request, and the printed report is
the success message exactly when the API returned status 201; for any
other status the report carries the response body, with no retry (the
single request is all that was submitted). -/
theorem create_listing_report
    (api_key api_secret upc_code completionText : String)
    (ebayDoc : Option (List EbayItem)) (dateStr : String)
    (store : Option String) (respStatus : Nat) (respBody : String)
    (rep : RunReport)
    (h : (create_sellbrite_product_listing api_key api_secret upc_code
        completionText ebayDoc dateStr store respStatus respBody).2 = .ok rep) :
    rep.requests.length = 1 ∧
    (rep.message = "Product listing created successfully." ↔ respStatus = 201) ∧
    (respStatus ≠ 201 →
      rep.message = "Failed to create product listing. Error: " ++ respBody) := by
  obtain ⟨req, hrep⟩ := create_listing_ok_shape api_key api_secret upc_code
    completionText ebayDoc dateStr store respStatus respBody rep h
  subst hrep
  refine ⟨rfl, sb_report_eq_success respStatus respBody, fun hs => ?_⟩
  simp [sb_report, hs]

theorem create_listing_report_witness :
    ∃ rep, (create_sellbrite_product_listing "k" "s" "u"
        "t\nd\nb\nmf\nmn\n19.99\nc" (some []) "261012" (some "41")
        422 "unprocessable").2 = .ok rep ∧
      rep.requests.length = 1 ∧
      (rep.message = "Product listing created successfully." ↔ (422 : Nat) = 201) ∧
      ((422 : Nat) ≠ 201 →
        rep.message = "Failed to create product listing. Error: " ++ "unprocessable") := by
  refine ⟨⟨[⟨"https://api.sellbrite.com/v1/products", "application/json",
            sb_auth_header "k" "s",
            ⟨"261012-B-042", "t", "d", "b", "mf", "mn",
             Rat.divInt 1999 100 / 2, "c", "u"⟩⟩],
          sb_report 422 "unprocessable"⟩, by rfl, ?_⟩
  exact create_listing_report "k" "s" "u" "t\nd\nb\nmf\nmn\n19.99\nc"
    (some []) "261012" (some "41") 422 "unprocessable" _ (by rfl)

/-- The stages a publisher run enters are always an initial segment of
generating, estimating, minting, publishing, in that order. -/
lemma create_listing_trace_take
    (api_key api_secret upc_code completionText : String)
    (ebayDoc : Option (List EbayItem)) (dateStr : String)
    (store : Option String) (respStatus : Nat) (respBody : String) :
    ∃ k, (create_sellbrite_product_listing api_key api_secret upc_code
        completionText ebayDoc dateStr store respStatus respBody).1 =
      [Stage.generating, .estimating, .minting, .publishing].take k := by
  rcases hgen : generate_product_info completionText with e | ⟨t, d, b, mf, mn, ms, c⟩
  · exact ⟨1, by simp [create_sellbrite_product_listing, hgen]⟩
  · rcases hest : get_ebay_sold_price ebayDoc with e | est
    · exact ⟨2, by simp [create_sellbrite_product_listing, hgen, hest]⟩
    · rcases est with _ | p
      · rcases hm : pyFloat ms with _ | m
        · exact ⟨2, by simp [create_sellbrite_product_listing, hgen, hest, hm]⟩
        · rcases hsku : generate_sku dateStr store with e | ⟨sku, ns⟩
          · exact ⟨3, by simp [create_sellbrite_product_listing, hgen, hest, hm, hsku]⟩
          · exact ⟨4, by simp [create_sellbrite_product_listing, hgen, hest, hm, hsku]⟩
      · rcases hsku : generate_sku dateStr store with e | ⟨sku, ns⟩
        · exact ⟨3, by simp [create_sellbrite_product_listing, hgen, hest, hsku]⟩
        · exact ⟨4, by simp [create_sellbrite_product_listing, hgen, hest, hsku]⟩

/-- C5 (corrected order): in every run the stages form an initial
segment of Acquiring, Generating, Estimating, Minting, Publishing, in
that order; no transition loops back and no stage repeats. -/
theorem pipeline_stage_order (frames : List Frame)
    (api_key api_secret completionText : String)
    (ebayDoc : Option (List EbayItem)) (dateStr : String)
    (store : Option String) (respStatus : Nat) (respBody : String) :
    (∃ k, (main_run frames api_key api_secret completionText ebayDoc
        dateStr store respStatus respBody).1 =
      [Stage.acquiring, .generating, .estimating, .minting, .publishing].take k) ∧
    (main_run frames api_key api_secret completionText ebayDoc
        dateStr store respStatus respBody).1.Nodup := by
  have hmain : ∃ k, (main_run frames api_key api_secret completionText ebayDoc
      dateStr store respStatus respBody).1 =
      [Stage.acquiring, .generating, .estimating, .minting, .publishing].take k := by
    unfold main_run
    rcases scan_frames frames with _ | upc
    · exact ⟨1, rfl⟩
    · obtain ⟨k, hk⟩ := create_listing_trace_take api_key api_secret upc
        completionText ebayDoc dateStr store respStatus respBody
      exact ⟨k + 1, by rw [List.take_succ_cons, ← hk]⟩
  refine ⟨hmain, ?_⟩
  obtain ⟨k, hk⟩ := hmain
  rw [hk]
  have hnd : ([Stage.acquiring, .generating, .estimating, .minting,
      .publishing]).Nodup := by decide
  exact hnd.sublist (List.take_sublist k _)

/-- C5 counterexample: a run on well-formed inputs enters the stages in
the order Acquiring, Generating, Estimating, Minting, Publishing, which
is not the order Acquiring, Minting, Estimating, Generating, Publishing
stated by the spec. -/
theorem pipeline_stage_order_counterexample :
    (main_run [[("UPC", "012345678905")]] "k" "s" "t\nd\nb\nmf\nmn\n19.99\nc"
        (some []) "261012" (some "41") 201 "").1 =
      [Stage.acquiring, .generating, .estimating, .minting, .publishing] ∧
    [Stage.acquiring, .generating, .estimating, .minting, .publishing] ≠
      [Stage.acquiring, .minting, .estimating, .generating, .publishing] :=
  ⟨by rfl, by decide⟩

/-- C9: at the credentials of the script, the Authorization header it
sends is the literal, unencoded concatenation Basic key:secret, which
differs from the Basic base64(key:secret) header the claim states. The
submitted request of a concrete run carries exactly that literal header. -/
theorem auth_header_not_base64 :
    sb_auth_header "your_api_key" "your_api_secret" =
      "Basic your_api_key:your_api_secret" ∧
    sb_auth_header "your_api_key" "your_api_secret" ≠
      spec_basic_auth "your_api_key" "your_api_secret" ∧
    (create_sellbrite_product_listing "your_api_key" "your_api_secret" "u"
        "t\nd\nb\nmf\nmn\n19.99\nc" (some []) "261012" (some "41")
        201 "").2 =
      .ok ⟨[⟨"https://api.sellbrite.com/v1/products", "application/json",
            "Basic your_api_key:your_api_secret",
            ⟨"261012-B-042", "t", "d", "b", "mf", "mn",
             Rat.divInt 1999 100 / 2, "c", "u"⟩⟩],
          "Product listing created successfully."⟩ :=
  ⟨rfl, by decide, by rfl⟩
